import Mathlib

set_option maxHeartbeats 1000000

namespace Quikvote

/-- One participant's score submission (`models.Vote`): the submitter's
username and an option-to-score map (`map[string]int`), embedded as an
association list. -/
structure Vote where
  username : String
  votes : List (String × Int)
deriving DecidableEq

/-- The Room record (`models.Room`) as the handlers in
`internal/handlers/room.go` and `pages.go` read and mutate it. -/
structure Room where
  id : String
  code : String
  owner : String
  participants : List String
  options : List String
  votes : List Vote
  lockedInUsers : List String
  state : String
deriving DecidableEq

/-- The HTTP error statuses the handlers produce via `http.Error`. -/
inductive HttpError where
  | unauthorized
  | notFound
  | badRequest
  | forbidden
  | conflict
  | internalServerError
deriving DecidableEq

/-- `contains` from `room.go`: linear scan for a string in a slice,
returning true at the first match. -/
def contains (s : List String) (str : String) : Bool :=
  match s with
  | [] => false
  | v :: rest => if v == str then true else contains rest str

/-- Modelled from the spec: `ConditionalAppendParticipant(id, identity)` —
"no-op success if already present". The `database` package that implements
`AddParticipantToRoom` is not under src. -/
def addParticipantToRoom (room : Room) (identity : String) : Bool × Room :=
  if contains room.participants identity then (true, room)
  else (true, { room with participants := room.participants ++ [identity] })

/-- Modelled from the spec: `ConditionalAppendOption(id, option)` — "fails
if already present". The `database` package that implements
`AddOptionToRoom` is not under src. -/
def addOptionDb (room : Room) (option : String) : Bool × Room :=
  if contains room.options option then (false, room)
  else (true, { room with options := room.options ++ [option] })

/-- Modelled from the spec: `ConditionalClose(id)` — transitions the room to
closed, "fails if not currently `open`". The `database` package that
implements `CloseRoom` is not under src. -/
def conditionalClose (room : Room) : Bool × Room :=
  if room.state == "open" then (true, { room with state := "closed" })
  else (false, room)

/-- The body `GetRoomHandler` serializes on success. -/
structure RoomResponse where
  id : String
  code : String
  owner : String
  participants : List String
  options : List String
  votes : List Vote
  state : String
  isOwner : Bool
deriving DecidableEq

inductive GetRoomResult where
  | ok (r : RoomResponse)
  | err (e : HttpError)
deriving DecidableEq

/-- `GetRoomHandler` (room.go) after authentication and a successful fetch
of an existing room: rooms whose state is not "open" get 409 Conflict,
otherwise the room snapshot is returned. -/
def getRoomHandler (user : String) (room : Room) : GetRoomResult :=
  if room.state ≠ "open" then .err .conflict
  else .ok ⟨room.id, room.code, room.owner, room.participants, room.options,
            room.votes, room.state, room.owner == user⟩

inductive JoinResult where
  | ok (id : String)
  | err (e : HttpError)
deriving DecidableEq

structure JoinOutcome where
  response : JoinResult
  room : Room
deriving DecidableEq

/-- `JoinRoomHandler` (room.go) after authentication and a successful fetch
of an existing room. `addErr` injects a store failure
(spec: `StoreUnavailable`) of the `AddParticipantToRoom` call; on a store
error no mutation is visible (spec §5). -/
def joinRoomHandler (user : String) (room : Room) (addErr : Bool) : JoinOutcome :=
  if room.state ≠ "open" then ⟨.err .conflict, room⟩
  else if addErr then ⟨.err .internalServerError, room⟩
  else
    let res := addParticipantToRoom room user
    if res.1 then ⟨.ok room.id, res.2⟩
    else ⟨.err .internalServerError, res.2⟩

inductive AddOptionResult where
  | ok (options : List String)
  | err (e : HttpError)
deriving DecidableEq

structure AddOptionOutcome where
  response : AddOptionResult
  room : Room
deriving DecidableEq

/-- `AddOptionToRoomHandler` (room.go) after authentication and a successful
fetch of an existing room. The body check (`option == ""` → 400) precedes
every room check, mirroring the source order; `addErr` injects a store
failure of the `AddOptionToRoom` call. On success the handler echoes
`append(room.Options, option)` computed from the fetched snapshot. -/
def addOptionToRoomHandler (user : String) (room : Room) (option : String)
    (addErr : Bool) : AddOptionOutcome :=
  if option = "" then ⟨.err .badRequest, room⟩
  else if room.state ≠ "open" then ⟨.err .conflict, room⟩
  else if ! contains room.participants user then ⟨.err .forbidden, room⟩
  else if contains room.options option then ⟨.err .conflict, room⟩
  else if addErr then ⟨.err .internalServerError, room⟩
  else
    let res := addOptionDb room option
    if res.1 then ⟨.ok (room.options ++ [option]), res.2⟩
    else ⟨.err .internalServerError, res.2⟩

inductive CloseResult where
  | ok
  | err (e : HttpError)
deriving DecidableEq

/-- Outcome of one `CloseRoomHandler` run: the HTTP response, the room as
the store leaves it, and the ranking passed to `CreateResult` when a result
record was created (`none` when no result was created). -/
structure CloseOutcome where
  response : CloseResult
  room : Room
  result : Option (List String)
deriving DecidableEq

/-- `CloseRoomHandler` (room.go) after authentication and a successful fetch
of an existing room: owner check, open check, conditional close via the
store, then `CreateResult` with the placeholder `sortedOptions := []string{}`
from the source. `closeErr` and `createErr` inject store failures of the
`CloseRoom` and `CreateResult` calls respectively. -/
def closeRoomHandler (user : String) (room : Room) (closeErr createErr : Bool) :
    CloseOutcome :=
  if room.owner ≠ user then ⟨.err .forbidden, room, none⟩
  else if room.state ≠ "open" then ⟨.err .conflict, room, none⟩
  else if closeErr then ⟨.err .internalServerError, room, none⟩
  else
    let res := conditionalClose room
    if ! res.1 then ⟨.err .internalServerError, res.2, none⟩
    else if createErr then ⟨.err .internalServerError, res.2, none⟩
    else ⟨.ok, res.2, some []⟩

/-- `VoteOption` from pages.go. -/
structure VoteOption where
  name : String
  value : Int
  disabled : Bool
deriving DecidableEq

/-- Outcome of `VotePageHandler`: an error response, the rendered page, or
`nilRoomDeref`, the point where the Go code reads `room.Participants` of a
nil room pointer (a nil-pointer dereference). -/
inductive VotePageOutcome where
  | err (e : HttpError)
  | nilRoomDeref
  | page (options : List VoteOption) (disabled : Bool)
deriving DecidableEq

/-- Read of a Go `map[string]int`: the value under the key, defaulting to 0
when the key is absent (`uservotes[opt]` in pages.go). -/
def scoreLookup (m : List (String × Int)) (k : String) : Int :=
  match m.find? (fun p => p.1 == k) with
  | some p => p.2
  | none => 0

/-- `VotePageHandler` (pages.go) after query parsing. `roomOpt` is the store
lookup result (`none` when `GetRoomById` reports the room absent with no
error, as `room.go`'s nil checks witness it can); `dbErr` is a lookup error.
The source checks only `err != nil` and then reads `room.Participants`
without a nil check, so the absent case reaches `nilRoomDeref`. -/
def votePageHandler (user : String) (roomOpt : Option Room) (dbErr : Bool) :
    VotePageOutcome :=
  if dbErr then .err .badRequest
  else
    match roomOpt with
    | none => .nilRoomDeref
    | some room =>
      if ! room.participants.any (fun username => username == user) then
        .err .badRequest
      else
        let disabled := room.lockedInUsers.any (fun username => username == user)
        match room.votes.find? (fun v => v.username == user) with
        | none => .err .internalServerError
        | some v =>
          .page (room.options.map (fun opt => ⟨opt, scoreLookup v.votes opt, disabled⟩))
            disabled

/-- Modelled from the spec: `aggregateScore(option)` is the sum over all
entries in votes of `scores[option] if present else 0` (§4.4 step 1). The
Aggregation Engine is absent from the source: the close handler persists a
placeholder instead. -/
def aggregateScore (votes : List Vote) (option : String) : Int :=
  votes.foldl (fun acc v => acc + scoreLookup v.votes option) 0

/-- Modelled from the spec: stable insertion into a descending-ordered
ranking — a pair is placed before the first pair of less-or-equal score, so
earlier-inserted options precede later ones on ties (§4.4 step 3). -/
def insertRanked (p : String × Int) : List (String × Int) → List (String × Int)
  | [] => [p]
  | q :: qs => if q.2 ≤ p.2 then p :: q :: qs else q :: insertRanked p qs

/-- Modelled from the spec: stable sort of a ranking, descending by score
(§4.4 step 2 with the step 3 tie-break). -/
def rankDesc : List (String × Int) → List (String × Int)
  | [] => []
  | p :: ps => insertRanked p (rankDesc ps)

/-- Modelled from the spec: the ranking §4.4 prescribes at close time —
every option paired with its aggregate score, sorted descending, ties by
ascending insertion position in `options`. -/
def specRanking (options : List String) (votes : List Vote) : List (String × Int) :=
  rankDesc (options.map (fun o => (o, aggregateScore votes o)))

/-- The scenario room of the spec: options pizza and sushi, votes by alice
and bob, owned by alice, open. -/
def roomPizza : Room :=
  { id := "r1", code := "PZZA", owner := "alice",
    participants := ["alice", "bob"],
    options := ["pizza", "sushi"],
    votes := [⟨"alice", [("pizza", 5), ("sushi", 2)]⟩,
              ⟨"bob", [("pizza", 1), ("sushi", 5)]⟩],
    lockedInUsers := [], state := "open" }

/-- Claim C1: the spec aggregation on the scenario snapshot yields
[(sushi,7),(pizza,6)], but a successful close of that very room persists the
placeholder empty ranking via `CreateResult`, not the aggregation. -/
theorem c1_close_persists_placeholder :
    (closeRoomHandler "alice" roomPizza false false).response = CloseResult.ok
    ∧ (closeRoomHandler "alice" roomPizza false false).result = some []
    ∧ specRanking roomPizza.options roomPizza.votes
        = [("sushi", (7 : Int)), ("pizza", (6 : Int))] := by
  decide

/-- Claim C2 counterexample: Close by the owner of an open room where the
`CreateResult` store call fails leaves the room in state closed with no
Result created, while the handler reports failure. -/
theorem c2_cex_closed_without_result :
    (closeRoomHandler "alice" roomPizza false true).room.state = "closed"
    ∧ (closeRoomHandler "alice" roomPizza false true).result = none
    ∧ (closeRoomHandler "alice" roomPizza false true).response
        = CloseResult.err HttpError.internalServerError := by
  decide

/-- Claim C2 (amended): every Close execution either leaves the room
unchanged with no Result, or commits the open→closed transition and creates
the (placeholder) Result exactly once, or — when `CreateResult` fails after
the close transition already committed — leaves the room closed with no
Result, so result creation is not atomic with the close transition. -/
theorem c2_close_effects (user : String) (room : Room) (closeErr createErr : Bool) :
    ((closeRoomHandler user room closeErr createErr).room = room
      ∧ (closeRoomHandler user room closeErr createErr).result = none)
    ∨ (room.state = "open"
      ∧ (closeRoomHandler user room closeErr createErr).room = { room with state := "closed" }
      ∧ (closeRoomHandler user room closeErr createErr).result = some []
      ∧ (closeRoomHandler user room closeErr createErr).response = CloseResult.ok)
    ∨ (createErr = true ∧ room.state = "open"
      ∧ (closeRoomHandler user room closeErr createErr).room = { room with state := "closed" }
      ∧ (closeRoomHandler user room closeErr createErr).result = none) := by
  by_cases h1 : room.owner ≠ user
  · left; simp [closeRoomHandler, h1]
  · by_cases h2 : room.state ≠ "open"
    · left; simp [closeRoomHandler, h1, h2]
    · rw [not_ne_iff] at h2
      cases closeErr with
      | true => left; simp [closeRoomHandler, h1, h2]
      | false =>
        cases createErr with
        | true =>
          right; right
          simp [closeRoomHandler, conditionalClose, h1, h2]
        | false =>
          right; left
          simp [closeRoomHandler, conditionalClose, h1, h2]

/-- A second concrete open room, owned by carol. -/
def roomCarol : Room :=
  { id := "r3", code := "CRLQ", owner := "carol",
    participants := ["carol"], options := ["a"],
    votes := [], lockedInUsers := [], state := "open" }

/-- Claim C3 counterexample: a failing Close (the `CreateResult` store call
errors) that nevertheless mutates the room — its state changes to closed —
so not every failure case leaves the room's state and fields unchanged. -/
theorem c3_cex_failure_mutates :
    (closeRoomHandler "carol" roomCarol false true).response
      = CloseResult.err HttpError.internalServerError
    ∧ (closeRoomHandler "carol" roomCarol false true).room ≠ roomCarol := by
  decide

/-- Claim C3 (amended): Close succeeds only on an open room called by its
owner; a non-owner caller fails with Forbidden, the owner on a non-open room
fails with Conflict, and every failure with the `CreateResult` step not
erroring leaves the room unchanged with no Result — but a `CreateResult`
failure after the committed close leaves the room closed without a Result. -/
theorem c3_close_guards (user : String) (room : Room) (closeErr createErr : Bool) :
    (room.owner ≠ user →
      (closeRoomHandler user room closeErr createErr).response
          = CloseResult.err HttpError.forbidden
      ∧ (closeRoomHandler user room closeErr createErr).room = room
      ∧ (closeRoomHandler user room closeErr createErr).result = none)
    ∧ (room.owner = user → room.state ≠ "open" →
      (closeRoomHandler user room closeErr createErr).response
          = CloseResult.err HttpError.conflict
      ∧ (closeRoomHandler user room closeErr createErr).room = room
      ∧ (closeRoomHandler user room closeErr createErr).result = none)
    ∧ (createErr = false → ∀ e,
      (closeRoomHandler user room closeErr createErr).response = CloseResult.err e →
      (closeRoomHandler user room closeErr createErr).room = room
      ∧ (closeRoomHandler user room closeErr createErr).result = none) := by
  refine ⟨?_, ?_, ?_⟩
  · intro h1
    simp [closeRoomHandler, h1]
  · intro h1 h2
    simp [closeRoomHandler, h1, h2]
  · rintro rfl e
    by_cases h1 : room.owner ≠ user
    · simp [closeRoomHandler, h1]
    · by_cases h2 : room.state ≠ "open"
      · simp [closeRoomHandler, h1, h2]
      · rw [not_ne_iff] at h2
        cases closeErr with
        | true => simp [closeRoomHandler, h1, h2]
        | false => simp [closeRoomHandler, conditionalClose, h1, h2]

/-- Witness for the amended C3 at a concrete input: eve is not carol's
room's owner, so Close fails with Forbidden and mutates nothing. -/
theorem c3_close_guards_witness :
    (closeRoomHandler "eve" roomCarol false false).response
        = CloseResult.err HttpError.forbidden
    ∧ (closeRoomHandler "eve" roomCarol false false).room = roomCarol := by
  have h := (c3_close_guards "eve" roomCarol false false).1 (by decide)
  exact ⟨h.1, h.2.1⟩

/-- Claim C4: `AddOption` on an open room fails with InvalidInput (400) on
an empty option (the body check comes first), with Forbidden (403) when the
caller is not a participant, with Conflict (409) when the option already
exists, and every failure leaves the room's option sequence unchanged. -/
theorem c4_addOption_failures (user : String) (room : Room) (option : String)
    (addErr : Bool) (hopen : room.state = "open") :
    (option = "" →
      (addOptionToRoomHandler user room option addErr).response
          = AddOptionResult.err HttpError.badRequest
      ∧ (addOptionToRoomHandler user room option addErr).room = room)
    ∧ (option ≠ "" → contains room.participants user = false →
      (addOptionToRoomHandler user room option addErr).response
          = AddOptionResult.err HttpError.forbidden
      ∧ (addOptionToRoomHandler user room option addErr).room = room)
    ∧ (option ≠ "" → contains room.participants user = true →
       contains room.options option = true →
      (addOptionToRoomHandler user room option addErr).response
          = AddOptionResult.err HttpError.conflict
      ∧ (addOptionToRoomHandler user room option addErr).room = room)
    ∧ (∀ e, (addOptionToRoomHandler user room option addErr).response
          = AddOptionResult.err e →
      (addOptionToRoomHandler user room option addErr).room.options = room.options) := by
  refine ⟨?_, ?_, ?_, ?_⟩
  · intro he
    simp [addOptionToRoomHandler, he]
  · intro he hp
    simp [addOptionToRoomHandler, he, hopen, hp]
  · intro he hp ho
    simp [addOptionToRoomHandler, he, hopen, hp, ho]
  · intro e
    by_cases he : option = ""
    · simp [addOptionToRoomHandler, he]
    · by_cases hp : contains room.participants user
      · by_cases ho : contains room.options option
        · simp [addOptionToRoomHandler, he, hopen, hp, ho]
        · cases addErr with
          | true => simp [addOptionToRoomHandler, he, hopen, hp, ho]
          | false =>
            simp [addOptionToRoomHandler, addOptionDb, he, hopen, hp, ho]
      · simp [addOptionToRoomHandler, he, hopen, hp]

/-- Witness for C4 at a concrete input: eve submits an empty option to the
open scenario room and gets InvalidInput with the room unchanged. -/
theorem c4_addOption_failures_witness :
    (addOptionToRoomHandler "eve" roomPizza "" false).response
        = AddOptionResult.err HttpError.badRequest
    ∧ (addOptionToRoomHandler "eve" roomPizza "" false).room = roomPizza := by
  exact (c4_addOption_failures "eve" roomPizza "" false (by decide)).1 rfl

/-- A concrete closed room. -/
def roomClosedSnap : Room :=
  { id := "r5", code := "CLSD", owner := "alice",
    participants := ["alice"], options := ["x"],
    votes := [], lockedInUsers := [], state := "closed" }

/-- Claim C5 counterexample: on a concrete closed room, GetRoom does not
succeed with the snapshot — it fails with the 409 Conflict of the
`room.State != "open"` guard. -/
theorem c5_cex_getRoom_closed :
    roomClosedSnap.state = "closed"
    ∧ getRoomHandler "alice" roomClosedSnap
        = GetRoomResult.err HttpError.conflict := by
  decide

/-- Claim C5 (amended): GetRoom fails with Conflict on every room whose
state is not open, and returns the snapshot only for open rooms. -/
theorem c5_getRoom_behavior (user : String) (room : Room) :
    (room.state ≠ "open" →
      getRoomHandler user room = GetRoomResult.err HttpError.conflict)
    ∧ (room.state = "open" →
      getRoomHandler user room = GetRoomResult.ok
        ⟨room.id, room.code, room.owner, room.participants, room.options,
         room.votes, room.state, room.owner == user⟩) := by
  constructor <;> intro h <;> simp [getRoomHandler, h]

/-- Witness for the amended C5 at a concrete input: the closed room yields
Conflict. -/
theorem c5_getRoom_behavior_witness :
    getRoomHandler "bob" roomClosedSnap = GetRoomResult.err HttpError.conflict := by
  exact (c5_getRoom_behavior "bob" roomClosedSnap).1 (by decide)

/-- Claim C6: on a room whose state is not open, Join fails with the 409
Conflict (RoomClosed) and AddOption with a non-empty option fails with the
409 Conflict, and neither mutates the room (an empty option is rejected
earlier with InvalidInput, per the C4 body check, still without mutation). -/
theorem c6_closed_room_guards (user : String) (room : Room) (option : String)
    (aErr bErr : Bool) (h : room.state ≠ "open") :
    (joinRoomHandler user room aErr).response = JoinResult.err HttpError.conflict
    ∧ (joinRoomHandler user room aErr).room = room
    ∧ (option ≠ "" →
        (addOptionToRoomHandler user room option bErr).response
            = AddOptionResult.err HttpError.conflict
        ∧ (addOptionToRoomHandler user room option bErr).room = room)
    ∧ (addOptionToRoomHandler user room option bErr).room = room := by
  refine ⟨?_, ?_, ?_, ?_⟩
  · simp [joinRoomHandler, h]
  · simp [joinRoomHandler, h]
  · intro ho
    simp [addOptionToRoomHandler, ho, h]
  · by_cases ho : option = ""
    · simp [addOptionToRoomHandler, ho]
    · simp [addOptionToRoomHandler, ho, h]

/-- Witness for C6 at a concrete input: dave on the closed room. -/
theorem c6_closed_room_guards_witness :
    (joinRoomHandler "dave" roomClosedSnap false).response
        = JoinResult.err HttpError.conflict
    ∧ (addOptionToRoomHandler "dave" roomClosedSnap "taco" false).room
        = roomClosedSnap := by
  have h := c6_closed_room_guards "dave" roomClosedSnap "taco" false false (by decide)
  exact ⟨h.1, (h.2.2.1 (by decide)).2⟩

/-- Claim C7: whenever AddOption succeeds, the returned option sequence is
the fetched room's options with the new option appended as last element,
and the stored room's options are exactly that sequence. -/
theorem c7_addOption_append (user : String) (room : Room) (option : String)
    (addErr : Bool) (opts : List String)
    (h : (addOptionToRoomHandler user room option addErr).response
        = AddOptionResult.ok opts) :
    opts = room.options ++ [option]
    ∧ (addOptionToRoomHandler user room option addErr).room.options
        = room.options ++ [option] := by
  by_cases he : option = ""
  · simp [addOptionToRoomHandler, he] at h
  · by_cases hs : room.state ≠ "open"
    · simp [addOptionToRoomHandler, he, hs] at h
    · by_cases hp : contains room.participants user
      · by_cases ho : contains room.options option
        · simp [addOptionToRoomHandler, he, hs, hp, ho] at h
        · cases addErr with
          | true => simp [addOptionToRoomHandler, he, hs, hp, ho] at h
          | false =>
            simp [addOptionToRoomHandler, addOptionDb, he, hs, hp, ho] at h
            simp [addOptionToRoomHandler, addOptionDb, he, hs, hp, ho, h]
      · simp [addOptionToRoomHandler, he, hs, hp] at h

/-- Witness for C7 at a concrete input: alice adds taco to the open scenario
room and the handler echoes the appended sequence. -/
theorem c7_addOption_append_witness :
    roomPizza.options ++ ["taco"] = roomPizza.options ++ ["taco"]
    ∧ (addOptionToRoomHandler "alice" roomPizza "taco" false).room.options
        = roomPizza.options ++ ["taco"] := by
  exact c7_addOption_append "alice" roomPizza "taco" false
    (roomPizza.options ++ ["taco"]) (by decide)

/-- Claim C8: Join on an open room is idempotent-by-membership — a caller
already in participants gets a success carrying the room id with no
mutation, and a new caller is appended to participants and gets the same
success. -/
theorem c8_join_idempotent (user : String) (room : Room)
    (hopen : room.state = "open") :
    (contains room.participants user = true →
      joinRoomHandler user room false = ⟨JoinResult.ok room.id, room⟩)
    ∧ (contains room.participants user = false →
      joinRoomHandler user room false
        = ⟨JoinResult.ok room.id,
           { room with participants := room.participants ++ [user] }⟩) := by
  constructor <;> intro h <;>
    simp [joinRoomHandler, addParticipantToRoom, hopen, h]

/-- Witness for C8 at a concrete input: alice, already a participant of the
open scenario room, rejoins with no mutation. -/
theorem c8_join_idempotent_witness :
    joinRoomHandler "alice" roomPizza false
      = ⟨JoinResult.ok roomPizza.id, roomPizza⟩ := by
  exact (c8_join_idempotent "alice" roomPizza (by decide)).1 (by decide)

/-- Claim C9 evidence: when the store lookup reports the room absent with no
error, the vote page handler does not return an error response — it falls
through the `err != nil` check to the read of the nil room's fields. -/
theorem c9_votePage_nil_deref :
    votePageHandler "alice" none false = VotePageOutcome.nilRoomDeref
    ∧ ∀ e, VotePageOutcome.nilRoomDeref ≠ VotePageOutcome.err e := by
  constructor
  · decide
  · intro e h
    cases h

/-- Claim C10: a participant of an existing room with no entry in the
room's votes gets an Internal Server Error from the vote page instead of a
rendered page. -/
theorem c10_votePage_missing_vote (user : String) (room : Room)
    (hp : user ∈ room.participants)
    (hv : ∀ v ∈ room.votes, v.username ≠ user) :
    votePageHandler user (some room) false
      = VotePageOutcome.err HttpError.internalServerError := by
  have hfind : room.votes.find? (fun v => v.username == user) = none := by
    rw [List.find?_eq_none]
    intro v hvmem
    simp only [beq_iff_eq]
    exact hv v hvmem
  have hany : room.participants.any (fun username => username == user) = true := by
    rw [List.any_eq_true]
    exact ⟨user, hp, by simp⟩
  simp [votePageHandler, hany, hfind]

/-- A room where bob is a participant but has never submitted a vote. -/
def roomNoVote : Room :=
  { id := "r10", code := "NV10", owner := "alice",
    participants := ["alice", "bob"], options := ["pizza"],
    votes := [⟨"alice", [("pizza", 3)]⟩],
    lockedInUsers := [], state := "open" }

/-- Witness for C10 at a concrete input: bob, a vote-less participant, gets
the 500. -/
theorem c10_votePage_missing_vote_witness :
    votePageHandler "bob" (some roomNoVote) false
      = VotePageOutcome.err HttpError.internalServerError := by
  exact c10_votePage_missing_vote "bob" roomNoVote (by decide) (by decide)

end Quikvote
